import Mathlib

/-!
Shallow embedding of the MoldManageSystem repository (src/app.py) and proofs
about its specification claims.

The embedding models:
* field values and rows of the three external tables (`manufacturers`,
  `maintenance_personnel`, `users`) as association lists of string keys to
  values, mirroring the Python dict rows returned by the Supabase client;
* the `SupabaseClient` data-access wrapper (`select` / `insert` / `update`,
  app.py lines 315-397), including the "eq." / "limit" filter-string
  convention, the id-filter integer parse, the insert/update stamping and
  the error-as-value result shape;
* the `login_required` authorization gate (app.py lines 466-483);
* the tenant-scoped route handlers `query_manufacturer` (POST body),
  `add_personnel`, `update_personnel`, `delete_personnel`,
  `restore_personnel`, `add_user`, `reset_password`;
* the bounded retry loop of `ConnectionManager.ensure_connection`
  (app.py lines 219-256).

External effects are made explicit: the database content is a `Store` value
threaded through the operations, the wall clock is a string parameter
(`datetime.now().isoformat()` call sites each get their own parameter), an
underlying network/client failure of a Supabase call is an explicit
parameter, and the SHA-256 credential hasher (an external library call whose
digest value no claim depends on) is a function parameter of the handlers
that use it.  Python `str` helpers used by the source (`startswith`,
slicing, `int(...)`, `strip()`, f-string rendering of `None`) are modelled
by executable char-list functions so that concrete witnesses evaluate in
the kernel.
-/

namespace MoldManage

/-- Field values stored in database rows: strings, integers, booleans, or
database NULL (Python `None`). -/
inductive Value where
  | str : String → Value
  | int : Int → Value
  | bool : Bool → Value
  | null : Value
deriving DecidableEq, Repr

/-- A database row, as the Supabase client returns it: a finite map from
column names to values, modelled as an association list in key-insertion
order (Python dict order). -/
abbrev Row := List (String × Value)

/-- Dictionary lookup `row[k]` / `row.get(k)`. -/
def getField : Row → String → Option Value
  | [], _ => none
  | (k', v') :: rest, k => if k' = k then some v' else getField rest k

/-- Dictionary assignment `row[k] = v`: replaces the value at an existing
key in place (Python dicts keep the original key position on overwrite) or
appends a new key at the end. -/
def setField : Row → String → Value → Row
  | [], k, v => [(k, v)]
  | (k', v') :: rest, k, v =>
    if k' = k then (k, v) :: rest else (k', v') :: setField rest k v

/-- Apply every key/value assignment of `patch` to `r`, in order (the
effect of a SQL `UPDATE ... SET` built from a Python dict). -/
def applyPatch (r : Row) (patch : Row) : Row :=
  patch.foldl (fun acc p => setField acc p.1 p.2) r

/-- Python `s.startswith(p)`. -/
def pyStartsWith (s p : String) : Bool :=
  p.data.isPrefixOf s.data

/-- Python `s[n:]` (drop the first `n` characters). -/
def pyDrop (s : String) (n : Nat) : String :=
  ⟨s.data.drop n⟩

/-- Accumulating decimal parser: fails on the first non-digit character. -/
def parseDigitsAux : List Char → Nat → Option Nat
  | [], acc => some acc
  | c :: cs, acc =>
    if c.isDigit then parseDigitsAux cs (acc * 10 + (c.toNat - 48)) else none

/-- Parse a non-empty all-digit character list as a natural number. -/
def parseDigits : List Char → Option Nat
  | [] => none
  | c :: cs => parseDigitsAux (c :: cs) 0

/-- Python `int(s)` on the string forms the source can produce: an optional
sign followed by decimal digits; anything else fails (raises `ValueError`
in the source, modelled as `none`).  (Python also strips surrounding
whitespace and accepts underscores; no call site in the source depends on
those forms.) -/
def pyInt (s : String) : Option Int :=
  match s.data with
  | [] => none
  | c :: cs =>
    if c = '-' then (parseDigits cs).map (fun n => -(n : Int))
    else if c = '+' then (parseDigits cs).map (fun n => (n : Int))
    else (parseDigits (c :: cs)).map (fun n => (n : Int))

/-- Python `s.strip()`: remove leading and trailing whitespace. -/
def pyStrip (s : String) : String :=
  ⟨((s.data.dropWhile Char.isWhitespace).reverse.dropWhile Char.isWhitespace).reverse⟩

/-- Python f-string rendering of an optional string: `None` renders as the
four-character text "None". -/
def pyShow : Option String → String
  | none => "None"
  | some s => s

/-- Python truthiness of an optional string (`request.form.get` result):
`None` and the empty string are falsy. -/
def truthy : Option String → Bool
  | none => false
  | some s => decide (s ≠ "")

/-- An optional string as a row value: Python `None` becomes database NULL. -/
def optStr : Option String → Value
  | none => Value.null
  | some s => Value.str s

/-- Python `x or None` on an optional string: the empty string collapses to
`None`. -/
def pyOrNone : Option String → Option String
  | some "" => none
  | x => x

/-- Python list slicing `xs[:n]` with an `Int` bound: a non-negative bound
keeps the first `n` elements, a negative bound drops the last `-n`. -/
def pyTake (xs : List Row) (n : Int) : List Row :=
  if 0 ≤ n then xs.take n.toNat else xs.take ((xs.length : Int) + n).toNat

/-- The filter argument of `select`/`update`: a Python dict from field name
to encoded filter string, in insertion order. -/
abbrev Filters := List (String × String)

/-- Dict lookup `filters[k]` / `k in filters`. -/
def lookupFilter : Filters → String → Option String
  | [], _ => none
  | (k', v) :: rest, k => if k' = k then some v else lookupFilter rest k

/-- A decoded equality condition accumulated by the query builder
(`query.eq(field, value)` calls in app.py). -/
inductive Cond where
  | eqStr : String → String → Cond
  | eqBool : String → Bool → Cond
  | eqInt : String → Int → Cond
deriving DecidableEq, Repr

/-- Whether a row satisfies one equality condition. -/
def condMatches (c : Cond) (r : Row) : Bool :=
  match c with
  | Cond.eqStr f v => decide (getField r f = some (Value.str v))
  | Cond.eqBool f b => decide (getField r f = some (Value.bool b))
  | Cond.eqInt f n => decide (getField r f = some (Value.int n))

/-- The filter-decoding loop of `SupabaseClient.select` (app.py 326-338):
recognizes `manufacturer_id`/`username` with an "eq." value, `is_active`
with exactly "eq.true", and `id` with an "eq." value whose remainder must
parse as an integer (parse failure raises, modelled as `Except.error`).
Every other key is skipped. -/
def selectCondsAux (acc : List Cond) : Filters → Except String (List Cond)
  | [] => Except.ok acc
  | (k, v) :: rest =>
    if k = "manufacturer_id" ∧ pyStartsWith v "eq." = true then
      selectCondsAux (acc ++ [Cond.eqStr "manufacturer_id" (pyDrop v 3)]) rest
    else if k = "is_active" ∧ v = "eq.true" then
      selectCondsAux (acc ++ [Cond.eqBool "is_active" true]) rest
    else if k = "username" ∧ pyStartsWith v "eq." = true then
      selectCondsAux (acc ++ [Cond.eqStr "username" (pyDrop v 3)]) rest
    else if k = "id" ∧ pyStartsWith v "eq." = true then
      match pyInt (pyDrop v 3) with
      | some n => selectCondsAux (acc ++ [Cond.eqInt "id" n]) rest
      | none => Except.error ("invalid literal for int() with base 10: " ++ pyDrop v 3)
    else
      selectCondsAux acc rest

/-- The filter-decoding loop of `SupabaseClient.update` (app.py 376-383):
only `id` (integer-parsed) and `manufacturer_id` are recognized; every
other key is skipped. -/
def updateCondsAux (acc : List Cond) : Filters → Except String (List Cond)
  | [] => Except.ok acc
  | (k, v) :: rest =>
    if k = "id" ∧ pyStartsWith v "eq." = true then
      match pyInt (pyDrop v 3) with
      | some n => updateCondsAux (acc ++ [Cond.eqInt "id" n]) rest
      | none => Except.error ("invalid literal for int() with base 10: " ++ pyDrop v 3)
    else if k = "manufacturer_id" ∧ pyStartsWith v "eq." = true then
      updateCondsAux (acc ++ [Cond.eqStr "manufacturer_id" (pyDrop v 3)]) rest
    else
      updateCondsAux acc rest

/-- The external database content: the three tables the system uses. -/
structure Store where
  manufacturers : List Row
  maintenance_personnel : List Row
  users : List Row
deriving DecidableEq, Repr

/-- Dispatch a table name to its row list (an unknown table is empty). -/
def Store.table (s : Store) (t : String) : List Row :=
  if t = "manufacturers" then s.manufacturers
  else if t = "maintenance_personnel" then s.maintenance_personnel
  else if t = "users" then s.users
  else []

/-- Replace the rows of a named table. -/
def Store.setTable (s : Store) (t : String) (rows : List Row) : Store :=
  if t = "manufacturers" then { s with manufacturers := rows }
  else if t = "maintenance_personnel" then { s with maintenance_personnel := rows }
  else if t = "users" then { s with users := rows }
  else s

/-- The `{'data': ..., 'error': ...}` result dict of `select`. -/
structure SelectResult where
  data : List Row
  error : Option String
deriving DecidableEq, Repr

/-- The `{'data': ..., 'error': ...}` result dict of `insert` and `update`
(`data` is `None` on failure). -/
structure WriteResult where
  data : Option (List Row)
  error : Option String
deriving DecidableEq, Repr

/-- Outcome of the underlying `table(t).insert(d).execute()` call:
success returning the written rows, success reporting no rows written
(app.py 365-366), or a raised exception. -/
inductive InsertNet where
  | ok : InsertNet
  | noRows : InsertNet
  | fail : String → InsertNet
deriving DecidableEq, Repr

namespace SupabaseClient

/-- `SupabaseClient.select` (app.py 322-351).  `netErr` is the outcome of
the underlying `query.execute()` call: `some e` means it raised with
message `e`.  All failure paths — a malformed `id` filter, a raised
execute, a malformed `limit` value — are caught and returned as
`{data: [], error: msg}`. -/
def select (store : Store) (netErr : Option String) (table : String)
    (filters : Filters) : SelectResult :=
  match selectCondsAux [] filters with
  | Except.error e => { data := [], error := some e }
  | Except.ok conds =>
    match netErr with
    | some e => { data := [], error := some e }
    | none =>
      let data := (store.table table).filter (fun r => conds.all (fun c => condMatches c r))
      match lookupFilter filters "limit" with
      | none => { data := data, error := none }
      | some s =>
        match pyInt s with
        | some n => { data := pyTake data n, error := none }
        | none => { data := [], error := some ("invalid literal for int() with base 10: " ++ s) }

/-- The row actually sent to the database by `insert` (app.py 355-359):
`created_at` is stamped with the current time; for the Personnel table
`updated_at` is stamped too and `is_active` defaults to true when the
caller omitted it.  `now1`/`now2` are the two separate `datetime.now()`
calls of the source. -/
def stampInsert (now1 now2 : String) (table : String) (data : Row) : Row :=
  let d1 := setField data "created_at" (Value.str now1)
  if table = "maintenance_personnel" then
    let d2 := setField d1 "updated_at" (Value.str now2)
    if getField d2 "is_active" = none then setField d2 "is_active" (Value.bool true) else d2
  else d1

/-- `SupabaseClient.insert` (app.py 353-370). -/
def insert (store : Store) (net : InsertNet) (now1 now2 : String) (table : String)
    (data : Row) : Store × WriteResult :=
  let stamped := stampInsert now1 now2 table data
  match net with
  | InsertNet.fail e => (store, { data := none, error := some e })
  | InsertNet.noRows => (store, { data := none, error := some "插入失败" })
  | InsertNet.ok =>
    (store.setTable table (store.table table ++ [stamped]),
     { data := some [stamped], error := none })

/-- The patch actually sent by `update` (app.py 385-386): for the Personnel
table `updated_at` is stamped with the current time. -/
def stampUpdatePatch (now : String) (table : String) (patch : Row) : Row :=
  if table = "maintenance_personnel" then setField patch "updated_at" (Value.str now)
  else patch

/-- `SupabaseClient.update` (app.py 372-397).  `netErr` is the outcome of
the underlying `query.update(data).execute()` call.  When zero rows match
the decoded filters the wrapper reports `更新失败，未找到记录` and the
store is unchanged. -/
def update (store : Store) (netErr : Option String) (now : String) (table : String)
    (patch : Row) (filters : Filters) : Store × WriteResult :=
  match updateCondsAux [] filters with
  | Except.error e => (store, { data := none, error := some e })
  | Except.ok conds =>
    match netErr with
    | some e => (store, { data := none, error := some e })
    | none =>
      let p := stampUpdatePatch now table patch
      let rows := store.table table
      let hits := fun r => conds.all (fun c => condMatches c r)
      let affected := (rows.filter hits).map (fun r => applyPatch r p)
      if affected = [] then
        (store, { data := none, error := some "更新失败，未找到记录" })
      else
        (store.setTable table (rows.map (fun r => if hits r then applyPatch r p else r)),
         { data := some affected, error := none })

end SupabaseClient

/-- The `session['user']` dict stored at login (app.py 668-674). -/
structure SessionUser where
  id : Int
  username : String
  real_name : String
  role : String
  manufacturer_id : Option String
deriving DecidableEq, Repr

/-- Result of a gated route: a redirect to `/login`, the fixed
`error.html` render with an HTTP status, or the wrapped handler's own
response. -/
inductive GateResult (α : Type) where
  | redirectLogin : GateResult α
  | errorView : String → String → Nat → GateResult α
  | ok : α → GateResult α
deriving DecidableEq, Repr

/-- The `login_required` decorator (app.py 466-483): with no session
present it redirects to the login route; with a truthy role list not
containing the session role it renders the fixed insufficient-permission
view with status 403; otherwise it runs the wrapped handler.  (Python
`if role and ...`: a `None` or empty role list disables the role check.
The lazy `init_app` call at the top of the decorator is a connection
side effect that does not influence the gate decision and is not
modelled here.) -/
def login_required {α : Type} (role : Option (List String)) (sess : Option SessionUser)
    (handler : SessionUser → α) : GateResult α :=
  match sess with
  | none => GateResult.redirectLogin
  | some u =>
    match role with
    | none => GateResult.ok (handler u)
    | some rs =>
      if rs ≠ [] ∧ u.role ∉ rs then
        GateResult.errorView "权限不足" "您没有访问此页面的权限" 403
      else GateResult.ok (handler u)

/-- A database operation issued by a handler, recorded so theorems can
state that a denied request performs no database access at all. -/
inductive DbOp where
  | opSelect : String → Filters → DbOp
  | opInsert : String → Row → DbOp
  | opUpdate : String → Row → Filters → DbOp
deriving DecidableEq, Repr

/-- The form fields read by the personnel handlers
(`request.form.get(...)`, absent fields are `None`). -/
structure PersonnelForm where
  manufacturer_id : Option String
  personnel_name : Option String
  hire_date : Option String
  position : Option String
  name_id : Option String
  manufacturer_name : Option String
  note : Option String
  personnel_id : Option String
deriving DecidableEq, Repr

/-- Responses of the personnel handlers: the fixed 403 tenant-denial
error view, a `manage.html` render (manufacturer row, personnel rows,
optional error, optional success message), or the 500 page reached when
the `manage.html` re-render itself raises (`['data'][0]` on an empty
result) inside the handler's own exception handler. -/
inductive PersonnelResp where
  | forbidden : PersonnelResp
  | manage : Row → List Row → Option String → Option String → PersonnelResp
  | internalError : PersonnelResp
deriving DecidableEq, Repr

/-- Responses of the POST branch of `query_manufacturer`: a `query.html`
render with an error message, a `manage.html` render, or the
`register.html` render offered to admins for an unknown manufacturer. -/
inductive QueryResp where
  | queryError : String → QueryResp
  | manage : Row → List Row → QueryResp
  | registerView : String → QueryResp
deriving DecidableEq, Repr

/-- The `jsonify({'success': ..., ...})` responses of `add_user` and
`reset_password`. -/
inductive JsonResp where
  | fail : String → JsonResp
  | success : String → JsonResp
deriving DecidableEq, Repr

/-- The re-fetch block repeated throughout the personnel handlers
(e.g. app.py 851-864): select the manufacturer row by id and the active
personnel of that manufacturer (`personnel_response['data'] or []` is the
data list itself).  Returns the issued operations, the manufacturer select
result and the personnel data. -/
def fetchManage (store : Store) (ne : Option String) (mid : Option String) :
    List DbOp × SelectResult × List Row :=
  let f1 : Filters := [("manufacturer_id", "eq." ++ pyShow mid)]
  let mresp := SupabaseClient.select store ne "manufacturers" f1
  let f2 : Filters := [("manufacturer_id", "eq." ++ pyShow mid), ("is_active", "eq.true")]
  let presp := SupabaseClient.select store ne "maintenance_personnel" f2
  ([DbOp.opSelect "manufacturers" f1, DbOp.opSelect "maintenance_personnel" f2],
   mresp, presp.data)

/-- Render `manage.html` after a re-fetch.  `manufacturer_response['data'][0]`
raises on an empty result; the handler's `except` block then re-runs the
same two selects and indexes `[0]` again, which raises again on the same
store, ending in the 500 handler — modelled as `internalError`. -/
def manageOr500 (store : Store) (ne : Option String) (mid : Option String)
    (err succ : Option String) : List DbOp × PersonnelResp :=
  let fr := fetchManage store ne mid
  match fr.2.1.data with
  | m :: _ => (fr.1, PersonnelResp.manage m fr.2.2 err succ)
  | [] => (fr.1 ++ (fetchManage store ne mid).1, PersonnelResp.internalError)

/-- The POST branch of `query_manufacturer` (app.py 713-767): strips the
submitted manufacturer id, rejects an empty id, denies a `user`-role
session whose own manufacturer id differs from the target, then reads the
manufacturer row and its active personnel. -/
def query_manufacturer_post (store : Store) (ne : Option String) (sess : SessionUser)
    (raw : String) : List DbOp × QueryResp :=
  let mid := pyStrip raw
  if mid = "" then ([], QueryResp.queryError "请输入厂家ID")
  else if sess.role = "user" ∧ sess.manufacturer_id ≠ some mid then
    ([], QueryResp.queryError "您只能查询自己厂家的信息")
  else
    let f1 : Filters := [("manufacturer_id", "eq." ++ mid)]
    let mresp := SupabaseClient.select store ne "manufacturers" f1
    match mresp.error with
    | some e => ([DbOp.opSelect "manufacturers" f1], QueryResp.queryError ("查询失败: " ++ e))
    | none =>
      let f2 : Filters := [("manufacturer_id", "eq." ++ mid), ("is_active", "eq.true")]
      let presp := SupabaseClient.select store ne "maintenance_personnel" f2
      let ops := [DbOp.opSelect "manufacturers" f1, DbOp.opSelect "maintenance_personnel" f2]
      match mresp.data with
      | m :: _ => (ops, QueryResp.manage m presp.data)
      | [] =>
        if sess.role = "super_admin" ∨ sess.role = "manufacturer_admin" then
          (ops, QueryResp.registerView mid)
        else (ops, QueryResp.queryError "厂家不存在且您没有注册权限")

/-- `add_personnel` (app.py 825-938): tenant check first, then the
name-required validation, then the insert, each failure or success
re-rendering `manage.html` from a fresh re-fetch. -/
def add_personnel (store : Store) (ne : Option String) (net : InsertNet)
    (now1 now2 : String) (sess : SessionUser) (form : PersonnelForm) :
    List DbOp × Store × PersonnelResp :=
  if sess.role = "user" ∧ sess.manufacturer_id ≠ form.manufacturer_id then
    ([], store, PersonnelResp.forbidden)
  else
    let new_personnel : Row :=
      [("manufacturer_id", optStr form.manufacturer_id),
       ("personnel_name", optStr form.personnel_name),
       ("hire_date", optStr form.hire_date),
       ("position", optStr form.position),
       ("name_id", optStr form.name_id),
       ("manufacturer_name", optStr form.manufacturer_name),
       ("note", optStr form.note)]
    if truthy form.personnel_name = false then
      let mr := manageOr500 store ne form.manufacturer_id (some "请输入保养人员姓名") none
      (mr.1, store, mr.2)
    else
      let ins := SupabaseClient.insert store net now1 now2 "maintenance_personnel" new_personnel
      match ins.2.error with
      | some e =>
        let mr := manageOr500 ins.1 ne form.manufacturer_id (some ("添加失败: " ++ e)) none
        (DbOp.opInsert "maintenance_personnel" new_personnel :: mr.1, ins.1, mr.2)
      | none =>
        let mr := manageOr500 ins.1 ne form.manufacturer_id none (some "保养人员添加成功")
        (DbOp.opInsert "maintenance_personnel" new_personnel :: mr.1, ins.1, mr.2)

/-- `update_personnel` (app.py 940-1055): builds the patch dict, tenant
check, name-required validation, then the id-scoped update. -/
def update_personnel (store : Store) (ne : Option String) (now : String)
    (sess : SessionUser) (form : PersonnelForm) : List DbOp × Store × PersonnelResp :=
  let update_data : Row :=
    [("personnel_name", optStr form.personnel_name),
     ("hire_date", optStr form.hire_date),
     ("position", optStr form.position),
     ("name_id", optStr form.name_id),
     ("manufacturer_name", optStr form.manufacturer_name),
     ("note", optStr form.note)]
  if sess.role = "user" ∧ sess.manufacturer_id ≠ form.manufacturer_id then
    ([], store, PersonnelResp.forbidden)
  else if truthy form.personnel_name = false then
    let mr := manageOr500 store ne form.manufacturer_id (some "请输入保养人员姓名") none
    (mr.1, store, mr.2)
  else
    let upFs : Filters := [("id", "eq." ++ pyShow form.personnel_id)]
    let upd := SupabaseClient.update store ne now "maintenance_personnel" update_data upFs
    match upd.2.error with
    | some e =>
      let mr := manageOr500 upd.1 ne form.manufacturer_id (some ("更新失败: " ++ e)) none
      (DbOp.opUpdate "maintenance_personnel" update_data upFs :: mr.1, upd.1, mr.2)
    | none =>
      let mr := manageOr500 upd.1 ne form.manufacturer_id none (some "保养人员信息更新成功")
      (DbOp.opUpdate "maintenance_personnel" update_data upFs :: mr.1, upd.1, mr.2)

/-- `delete_personnel` (app.py 1057-1143): soft delete — tenant check,
then an id-scoped update setting `is_active` to false. -/
def delete_personnel (store : Store) (ne : Option String) (now : String)
    (sess : SessionUser) (form : PersonnelForm) : List DbOp × Store × PersonnelResp :=
  if sess.role = "user" ∧ sess.manufacturer_id ≠ form.manufacturer_id then
    ([], store, PersonnelResp.forbidden)
  else
    let upFs : Filters := [("id", "eq." ++ pyShow form.personnel_id)]
    let patch : Row := [("is_active", Value.bool false)]
    let upd := SupabaseClient.update store ne now "maintenance_personnel" patch upFs
    match upd.2.error with
    | some e =>
      let mr := manageOr500 upd.1 ne form.manufacturer_id (some ("删除失败: " ++ e)) none
      (DbOp.opUpdate "maintenance_personnel" patch upFs :: mr.1, upd.1, mr.2)
    | none =>
      let mr := manageOr500 upd.1 ne form.manufacturer_id none (some "保养人员删除成功")
      (DbOp.opUpdate "maintenance_personnel" patch upFs :: mr.1, upd.1, mr.2)

/-- `restore_personnel` (app.py 1145-1231): tenant check, then an
id-scoped update setting `is_active` back to true. -/
def restore_personnel (store : Store) (ne : Option String) (now : String)
    (sess : SessionUser) (form : PersonnelForm) : List DbOp × Store × PersonnelResp :=
  if sess.role = "user" ∧ sess.manufacturer_id ≠ form.manufacturer_id then
    ([], store, PersonnelResp.forbidden)
  else
    let upFs : Filters := [("id", "eq." ++ pyShow form.personnel_id)]
    let patch : Row := [("is_active", Value.bool true)]
    let upd := SupabaseClient.update store ne now "maintenance_personnel" patch upFs
    match upd.2.error with
    | some e =>
      let mr := manageOr500 upd.1 ne form.manufacturer_id (some ("恢复失败: " ++ e)) none
      (DbOp.opUpdate "maintenance_personnel" patch upFs :: mr.1, upd.1, mr.2)
    | none =>
      let mr := manageOr500 upd.1 ne form.manufacturer_id none (some "保养人员恢复成功")
      (DbOp.opUpdate "maintenance_personnel" patch upFs :: mr.1, upd.1, mr.2)

/-- The form fields read by `add_user`. -/
structure AddUserForm where
  username : Option String
  password : Option String
  real_name : Option String
  role : Option String
  manufacturer_id : Option String
  email : Option String
  phone : Option String
deriving DecidableEq, Repr

/-- `add_user` (app.py 1253-1296).  A missing password raises inside
`hash_password(None)` before any check and lands in the generic
system-error response.  A `manufacturer_admin` may only create
`user`-role accounts and has the new account forced into its own
manufacturer.  `hash` is the SHA-256 credential hasher, passed as a
function parameter. -/
def add_user (store : Store) (ne : Option String) (net : InsertNet)
    (hash : String → String) (now1 now2 : String)
    (sess : SessionUser) (form : AddUserForm) : List DbOp × Store × JsonResp :=
  match form.password with
  | none => ([], store, JsonResp.fail "系统错误")
  | some raw =>
    let user_data : Row :=
      [("username", optStr form.username),
       ("password", Value.str (hash raw)),
       ("real_name", optStr form.real_name),
       ("role", optStr form.role),
       ("manufacturer_id", optStr (pyOrNone form.manufacturer_id)),
       ("email", optStr form.email),
       ("phone", optStr form.phone),
       ("is_active", Value.bool true),
       ("created_by", Value.str sess.username)]
    if (truthy form.username && truthy form.real_name && truthy form.role
        && truthy (some raw)) = false then
      ([], store, JsonResp.fail "请填写所有必填字段")
    else if sess.role = "manufacturer_admin" ∧ form.role ≠ some "user" then
      ([], store, JsonResp.fail "您只能创建普通用户")
    else
      let user_data :=
        if sess.role = "manufacturer_admin" then
          setField user_data "manufacturer_id" (optStr sess.manufacturer_id)
        else user_data
      let selFs : Filters := [("username", "eq." ++ pyShow form.username)]
      let existing := SupabaseClient.select store ne "users" selFs
      if existing.data ≠ [] then
        ([DbOp.opSelect "users" selFs], store, JsonResp.fail "用户名已存在")
      else
        let ins := SupabaseClient.insert store net now1 now2 "users" user_data
        let ops := [DbOp.opSelect "users" selFs, DbOp.opInsert "users" user_data]
        match ins.2.error with
        | some e => (ops, ins.1, JsonResp.fail e)
        | none => (ops, ins.1, JsonResp.success "用户添加成功")

/-- `reset_password` (app.py 1298-1329): requires both fields, checks the
username exists via a username-filtered select, then updates the users
table with the password patch and the filter
`{'username': 'eq.<username>'}`. -/
def reset_password (store : Store) (ne : Option String) (hash : String → String)
    (now : String) (username new_password : Option String) :
    List DbOp × Store × JsonResp :=
  if (truthy username && truthy new_password) = false then
    ([], store, JsonResp.fail "请提供用户名和新密码")
  else
    let selFs : Filters := [("username", "eq." ++ pyShow username)]
    let ur := SupabaseClient.select store ne "users" selFs
    if ur.data = [] then
      ([DbOp.opSelect "users" selFs], store, JsonResp.fail "用户不存在")
    else
      let patch : Row := [("password", Value.str (hash (pyShow new_password)))]
      let upFs : Filters := [("username", "eq." ++ pyShow username)]
      let upd := SupabaseClient.update store ne now "users" patch upFs
      let ops := [DbOp.opSelect "users" selFs, DbOp.opUpdate "users" patch upFs]
      match upd.2.error with
      | some e => (ops, upd.1, JsonResp.fail e)
      | none => (ops, upd.1, JsonResp.success "密码重置成功")

/-- Environment of one `ensure_connection` attempt: whether constructing
the Supabase client would succeed (`get_client`, app.py 207-217), and
whether the probe select on a live client reports healthy
(`test_result['error']` falsy, app.py 237-239). -/
structure AttemptEnv where
  constructOk : Bool
  probeOk : Bool
deriving DecidableEq, Repr

/-- Observable events of the retry loop: an attempt with its index, and a
`time.sleep` with its duration in seconds. -/
inductive Ev where
  | attempt : Nat → Ev
  | sleep : Nat → Ev
deriving DecidableEq, Repr

/-- The body of `ConnectionManager.ensure_connection`'s
`for attempt in range(self.max_retries)` loop (app.py 231-256), over the
remaining per-attempt environments.  An attempt succeeds when a client
handle is live and its probe is healthy; on failure before the last
attempt the loop sleeps `retry_delay` (5) seconds and resets the handle
to `None`; on the last attempt it returns `False` without resetting the
handle. -/
def ensureLoop : List (Nat × AttemptEnv) → Option Unit → Bool × Option Unit × List Ev
  | [], cl => (false, cl, [])
  | (i, e) :: rest, cl =>
    let cl' := if cl.isSome then cl else if e.constructOk then some () else none
    if cl'.isSome ∧ e.probeOk = true then (true, cl', [Ev.attempt i])
    else if rest = [] then (false, cl', [Ev.attempt i])
    else
      let r := ensureLoop rest none
      (r.1, r.2.1, Ev.attempt i :: Ev.sleep 5 :: r.2.2)

/-- `ConnectionManager.ensure_connection` with `max_retries = 3` and
`retry_delay = 5` (app.py 222-256): returns whether a healthy connection
was established, the final global client handle, and the attempt/sleep
trace. -/
def ensure_connection (e0 e1 e2 : AttemptEnv) (cl : Option Unit) :
    Bool × Option Unit × List Ev :=
  ensureLoop [(0, e0), (1, e1), (2, e2)] cl

/-- The store transformation of `delete_personnel` followed by
`restore_personnel` on the same personnel id: the two id-scoped
`is_active` updates issued by those handlers (app.py 1071-1077 and
1159-1165), with their two `updated_at` stamps. -/
def deleteThenRestore (store : Store) (now1 now2 : String) (v : String) : Store :=
  let s1 := (SupabaseClient.update store none now1 "maintenance_personnel"
              [("is_active", Value.bool false)] [("id", v)]).1
  (SupabaseClient.update s1 none now2 "maintenance_personnel"
      [("is_active", Value.bool true)] [("id", v)]).1

/-- Concrete users store for witnesses: one admin row and one manufacturer
A user row. -/
def exStore : Store :=
  { manufacturers := [[("id", Value.int 1), ("manufacturer_id", Value.str "A"),
                       ("name", Value.str "示例厂家")]],
    maintenance_personnel := [[("id", Value.int 1), ("manufacturer_id", Value.str "A"),
                               ("personnel_name", Value.str "张三"),
                               ("is_active", Value.bool true)]],
    users := [[("id", Value.int 1), ("username", Value.str "admin"),
               ("password", Value.str "p0"), ("manufacturer_id", Value.null)],
              [("id", Value.int 2), ("username", Value.str "bob"),
               ("password", Value.str "p1"), ("manufacturer_id", Value.str "A")]] }

/-- A `user`-role session of manufacturer A. -/
def exUserSess : SessionUser :=
  { id := 3, username := "u1", real_name := "普通用户", role := "user",
    manufacturer_id := some "A" }

/-- A `manufacturer_admin`-role session of manufacturer A. -/
def exMfrAdminSess : SessionUser :=
  { id := 4, username := "m1", real_name := "厂家管理员", role := "manufacturer_admin",
    manufacturer_id := some "A" }

/-- Personnel form targeting manufacturer B. -/
def exFormB : PersonnelForm :=
  { manufacturer_id := some "B", personnel_name := some "李四", hire_date := none,
    position := none, name_id := none, manufacturer_name := some "B厂",
    note := none, personnel_id := some "1" }

/-- Add-user form creating a fresh `user`-role account. -/
def exAddUserForm : AddUserForm :=
  { username := some "carol", password := some "pw1", real_name := some "卡罗",
    role := some "user", manufacturer_id := some "B", email := none, phone := none }

/-- Store whose single personnel row is already soft-deleted
(`is_active = false`). -/
def exStoreInactive : Store :=
  { manufacturers := [],
    maintenance_personnel := [[("id", Value.int 1), ("personnel_name", Value.str "王五"),
                               ("is_active", Value.bool false)]],
    users := [] }

theorem getField_setField_self (r : Row) (k : String) (v : Value) :
    getField (setField r k v) k = some v := by
  induction r with
  | nil => simp [setField, getField]
  | cons p rest ih =>
    obtain ⟨k0, v0⟩ := p
    by_cases h0 : k0 = k
    · simp [setField, getField, h0]
    · simp [setField, getField, h0, ih]

theorem getField_setField_ne (r : Row) (k' k : String) (v : Value) (h : k' ≠ k) :
    getField (setField r k' v) k = getField r k := by
  induction r with
  | nil => simp [setField, getField, h]
  | cons p rest ih =>
    obtain ⟨k0, v0⟩ := p
    by_cases h0 : k0 = k'
    · subst h0
      simp [setField, getField, h]
    · by_cases h1 : k0 = k
      · simp [setField, getField, h0, h1, Ne.symm h]
      · simp [setField, getField, h0, h1, ih]

theorem applyPatch_cons (r : Row) (p : String × Value) (ps : Row) :
    applyPatch r (p :: ps) = applyPatch (setField r p.1 p.2) ps := rfl

theorem getField_applyPatch_notMem (r : Row) (patch : Row) (k : String)
    (h : ∀ p ∈ patch, p.1 ≠ k) :
    getField (applyPatch r patch) k = getField r k := by
  induction patch generalizing r with
  | nil => rfl
  | cons p ps ih =>
    rw [applyPatch_cons, ih _ (fun q hq => h q (List.mem_cons_of_mem _ hq)),
      getField_setField_ne _ _ _ _ (h p (List.mem_cons_self _ _))]

theorem pyTake_subset (xs : List Row) (n : Int) : pyTake xs n ⊆ xs := by
  unfold pyTake
  split <;> exact List.take_subset _ _

theorem select_data_subset (store : Store) (ne : Option String) (t : String)
    (fs : Filters) : (SupabaseClient.select store ne t fs).data ⊆ store.table t := by
  unfold SupabaseClient.select
  split
  · simp
  · split
    · simp
    · split
      · exact fun r hr => List.mem_of_mem_filter hr
      · split
        · exact fun r hr => List.mem_of_mem_filter (pyTake_subset _ _ hr)
        · simp

theorem selectCondsAux_skip (k v : String)
    (h1 : k ≠ "manufacturer_id") (h2 : k ≠ "is_active") (h3 : k ≠ "username")
    (h4 : k ≠ "id") (acc : List Cond) (rest : Filters) :
    selectCondsAux acc ((k, v) :: rest) = selectCondsAux acc rest := by
  simp [selectCondsAux, h1, h2, h3, h4]

theorem selectCondsAux_ignore (k v : String)
    (h1 : k ≠ "manufacturer_id") (h2 : k ≠ "is_active") (h3 : k ≠ "username")
    (h4 : k ≠ "id") (fs1 fs2 : Filters) (acc : List Cond) :
    selectCondsAux acc (fs1 ++ (k, v) :: fs2) = selectCondsAux acc (fs1 ++ fs2) := by
  induction fs1 generalizing acc with
  | nil => exact selectCondsAux_skip k v h1 h2 h3 h4 acc fs2
  | cons p fs ih =>
    obtain ⟨k0, v0⟩ := p
    simp only [List.cons_append, selectCondsAux]
    split
    · exact ih _
    · split
      · exact ih _
      · split
        · exact ih _
        · split
          · split
            · exact ih _
            · rfl
          · exact ih _

theorem updateCondsAux_skip (k v : String)
    (h1 : k ≠ "id") (h2 : k ≠ "manufacturer_id") (acc : List Cond) (rest : Filters) :
    updateCondsAux acc ((k, v) :: rest) = updateCondsAux acc rest := by
  simp [updateCondsAux, h1, h2]

theorem updateCondsAux_ignore (k v : String)
    (h1 : k ≠ "id") (h2 : k ≠ "manufacturer_id") (fs1 fs2 : Filters) (acc : List Cond) :
    updateCondsAux acc (fs1 ++ (k, v) :: fs2) = updateCondsAux acc (fs1 ++ fs2) := by
  induction fs1 generalizing acc with
  | nil => exact updateCondsAux_skip k v h1 h2 acc fs2
  | cons p fs ih =>
    obtain ⟨k0, v0⟩ := p
    simp only [List.cons_append, updateCondsAux]
    split
    · split
      · exact ih _
      · rfl
    · split
      · exact ih _
      · exact ih _

theorem lookupFilter_skip (k v k0 : String) (h : k ≠ k0) (fs1 fs2 : Filters) :
    lookupFilter (fs1 ++ (k, v) :: fs2) k0 = lookupFilter (fs1 ++ fs2) k0 := by
  induction fs1 with
  | nil => simp [lookupFilter, h]
  | cons p fs ih =>
    obtain ⟨k1, v1⟩ := p
    by_cases h1 : k1 = k0 <;> simp [lookupFilter, h1, ih]

/-- Concrete stand-in digest function for witnesses (no claim depends on
the digest's value, only on where it is stored). -/
def exHash (s : String) : String := "sha256:" ++ s

/-- C1: a session with role `user` and manufacturer id A is denied by
every tenant-scoped handler when the request targets a different
manufacturer id B: the POST branch of the query route returns the
tenant-error message and the four personnel mutation handlers return the
fixed 403 error view, in every case with no database operation issued and
the store unchanged. -/
theorem c1_tenant_isolation (store : Store) (ne : Option String) (net : InsertNet)
    (now1 now2 : String) (sess : SessionUser) (a b : String)
    (hrole : sess.role = "user") (hmid : sess.manufacturer_id = some a) (hab : a ≠ b)
    (hs : pyStrip b = b) (hbne : b ≠ "")
    (form : PersonnelForm) (hf : form.manufacturer_id = some b) :
    query_manufacturer_post store ne sess b
      = ([], QueryResp.queryError "您只能查询自己厂家的信息")
    ∧ add_personnel store ne net now1 now2 sess form = ([], store, PersonnelResp.forbidden)
    ∧ update_personnel store ne now1 sess form = ([], store, PersonnelResp.forbidden)
    ∧ delete_personnel store ne now1 sess form = ([], store, PersonnelResp.forbidden)
    ∧ restore_personnel store ne now1 sess form = ([], store, PersonnelResp.forbidden) := by
  have hneq : sess.manufacturer_id ≠ form.manufacturer_id := by
    rw [hmid, hf]
    simp [hab]
  have hneq2 : sess.manufacturer_id ≠ some b := by
    rw [hmid]
    simp [hab]
  refine ⟨?_, ?_, ?_, ?_, ?_⟩
  · unfold query_manufacturer_post
    rw [hs, if_neg hbne, if_pos ⟨hrole, hneq2⟩]
  · unfold add_personnel
    rw [if_pos ⟨hrole, hneq⟩]
  · unfold update_personnel
    rw [if_pos ⟨hrole, hneq⟩]
  · unfold delete_personnel
    rw [if_pos ⟨hrole, hneq⟩]
  · unfold restore_personnel
    rw [if_pos ⟨hrole, hneq⟩]

/-- Witness for C1: the concrete manufacturer-A `user` session is denied
on a request targeting manufacturer B by all five handlers. -/
theorem c1_tenant_isolation_witness :
    query_manufacturer_post exStore none exUserSess "B"
      = ([], QueryResp.queryError "您只能查询自己厂家的信息")
    ∧ add_personnel exStore none InsertNet.ok "t1" "t2" exUserSess exFormB
      = ([], exStore, PersonnelResp.forbidden)
    ∧ update_personnel exStore none "t1" exUserSess exFormB
      = ([], exStore, PersonnelResp.forbidden)
    ∧ delete_personnel exStore none "t1" exUserSess exFormB
      = ([], exStore, PersonnelResp.forbidden)
    ∧ restore_personnel exStore none "t1" exUserSess exFormB
      = ([], exStore, PersonnelResp.forbidden) :=
  c1_tenant_isolation exStore none InsertNet.ok "t1" "t2" exUserSess "A" "B" rfl rfl
    (by decide) (by decide) (by decide) exFormB rfl

/-- C3: for every route wrapped by `login_required`, a request with no
session is answered by a redirect to the login route, and — for the
non-empty required-role sets the application passes — a session whose
role is not a member is answered by the fixed insufficient-permission
error view with status 403.  Both equations hold for every wrapped
handler `f`, so the handler body contributes nothing to the response —
it is never executed. -/
theorem c3_login_required_gate {α : Type} (role : Option (List String))
    (rs : List String) (u : SessionUser)
    (hr : role = some rs) (hne : rs ≠ []) (hnot : u.role ∉ rs) :
    (∀ (ro : Option (List String)) (f : SessionUser → α),
        login_required ro none f = GateResult.redirectLogin)
    ∧ (∀ f : SessionUser → α,
        login_required role (some u) f
          = GateResult.errorView "权限不足" "您没有访问此页面的权限" 403) := by
  constructor
  · intro ro f
    rfl
  · intro f
    subst hr
    simp [login_required, hne, hnot]

/-- Witness for C3: a `user`-role session hitting a super_admin-only
route is shown the 403 view; an unauthenticated request is redirected. -/
theorem c3_login_required_gate_witness :
    (∀ (ro : Option (List String)) (f : SessionUser → Nat),
        login_required ro none f = GateResult.redirectLogin)
    ∧ (∀ f : SessionUser → Nat,
        login_required (some ["super_admin"]) (some exUserSess) f
          = GateResult.errorView "权限不足" "您没有访问此页面的权限" 403) :=
  c3_login_required_gate (some ["super_admin"]) ["super_admin"] exUserSess rfl
    (by decide) (by decide)

/-- Add-user form whose requested role is not `user`. -/
def exAddUserFormBad : AddUserForm :=
  { username := some "dave", password := some "pw1", real_name := some "戴夫",
    role := some "manufacturer_admin", manufacturer_id := some "B",
    email := none, phone := none }

/-- C4 counterexample: the claim says every authenticated session whose
role is not `super_admin` is denied on POST /add_user.  The route is
gated with the role list `['super_admin', 'manufacturer_admin']`
(app.py 1254), so a `manufacturer_admin` session passes the gate, the
handler body runs, and it creates the requested `user`-role account —
the users table grows by one row. -/
theorem c4_counterexample :
    exMfrAdminSess.role ≠ "super_admin"
    ∧ login_required (some ["super_admin", "manufacturer_admin"]) (some exMfrAdminSess)
        (fun u => add_user exStore none InsertNet.ok exHash "t1" "t2" u exAddUserForm)
      = GateResult.ok
          (add_user exStore none InsertNet.ok exHash "t1" "t2" exMfrAdminSess exAddUserForm)
    ∧ (add_user exStore none InsertNet.ok exHash "t1" "t2" exMfrAdminSess exAddUserForm).2.2
      = JsonResp.success "用户添加成功"
    ∧ (add_user exStore none InsertNet.ok exHash "t1" "t2" exMfrAdminSess exAddUserForm).2.1.users.length
      = exStore.users.length + 1 := by
  refine ⟨by decide, rfl, by decide, by decide⟩

/-- C4 amended: POST /reset_password is gated `['super_admin']`, so every
authenticated non-super_admin session is denied with the 403
insufficient-permission view for any wrapped handler (hence no password
change).  POST /add_user is gated `['super_admin', 'manufacturer_admin']`:
a session whose role is neither is denied the same way, while an admitted
`manufacturer_admin` session may only create `user`-role accounts — any
other requested role is rejected by the handler before any database
operation. -/
theorem c4_amended {α : Type} (sess : SessionUser) (hns : sess.role ≠ "super_admin")
    (store : Store) (ne : Option String) (net : InsertNet) (hash : String → String)
    (now1 now2 : String) (form : AddUserForm) (raw : String)
    (hpw : form.password = some raw)
    (hreq : (truthy form.username && truthy form.real_name && truthy form.role
              && truthy (some raw)) = true)
    (hrole2 : form.role ≠ some "user") :
    (∀ f : SessionUser → α,
        login_required (some ["super_admin"]) (some sess) f
          = GateResult.errorView "权限不足" "您没有访问此页面的权限" 403)
    ∧ (sess.role ≠ "manufacturer_admin" →
        ∀ f : SessionUser → α,
          login_required (some ["super_admin", "manufacturer_admin"]) (some sess) f
            = GateResult.errorView "权限不足" "您没有访问此页面的权限" 403)
    ∧ (sess.role = "manufacturer_admin" →
        add_user store ne net hash now1 now2 sess form
          = ([], store, JsonResp.fail "您只能创建普通用户")) := by
  refine ⟨?_, ?_, ?_⟩
  · intro f
    simp [login_required, hns]
  · intro hma f
    simp [login_required, hns, hma]
  · intro hma
    unfold add_user
    rw [hpw]
    simp only [hreq]
    rw [if_neg (by simp), if_pos ⟨hma, hrole2⟩]

theorem select_eq_ok (store : Store) (t : String) (fs : Filters) (conds : List Cond)
    (hc : selectCondsAux [] fs = Except.ok conds) :
    SupabaseClient.select store none t fs =
      match lookupFilter fs "limit" with
      | none =>
        { data := (store.table t).filter (fun r => conds.all (fun c => condMatches c r)),
          error := none }
      | some s =>
        match pyInt s with
        | some n =>
          { data := pyTake ((store.table t).filter
                      (fun r => conds.all (fun c => condMatches c r))) n,
            error := none }
        | none =>
          { data := [], error := some ("invalid literal for int() with base 10: " ++ s) } := by
  unfold SupabaseClient.select
  rw [hc]

theorem select_mem_conds (store : Store) (t : String) (fs : Filters)
    (conds : List Cond) (hc : selectCondsAux [] fs = Except.ok conds)
    (r : Row) (hr : r ∈ (SupabaseClient.select store none t fs).data)
    (c : Cond) (hcm : c ∈ conds) : condMatches c r = true := by
  rw [select_eq_ok store t fs conds hc] at hr
  cases hl : lookupFilter fs "limit" with
  | none =>
    rw [hl] at hr
    have h2 := (List.mem_filter.mp hr).2
    rw [List.all_eq_true] at h2
    exact h2 c hcm
  | some s =>
    rw [hl] at hr
    dsimp only at hr
    cases hpi : pyInt s with
    | some n =>
      rw [hpi] at hr
      have h2 := (List.mem_filter.mp (pyTake_subset _ _ hr)).2
      rw [List.all_eq_true] at h2
      exact h2 c hcm
    | none =>
      rw [hpi] at hr
      simp at hr

/-- C5: the filter convention round-trips through `select`: an
`{'id': 'eq.5'}` filter returns only rows whose id field equals 5; a
`{'limit': '2'}` filter returns exactly the first two rows of the
underlying table (client-side truncation after the full fetch), hence at
most 2 rows regardless of store size; and in general every returned row
satisfies every condition decoded from the filter map — the recognized
filters combine by logical AND. -/
theorem c5_select_filter_semantics (store store2 store3 : Store) (t t2 t3 : String)
    (fs : Filters) (conds : List Cond)
    (hc : selectCondsAux [] fs = Except.ok conds) :
    (∀ r ∈ (SupabaseClient.select store none t [("id", "eq.5")]).data,
        getField r "id" = some (Value.int 5))
    ∧ ((SupabaseClient.select store2 none t2 [("limit", "2")]).data
        = (store2.table t2).take 2
       ∧ (SupabaseClient.select store2 none t2 [("limit", "2")]).data.length ≤ 2)
    ∧ (∀ r ∈ (SupabaseClient.select store3 none t3 fs).data,
        ∀ c ∈ conds, condMatches c r = true) := by
  refine ⟨?_, ?_, ?_⟩
  · intro r hr
    have h := select_mem_conds store t [("id", "eq.5")] [Cond.eqInt "id" 5] rfl r hr
      (Cond.eqInt "id" 5) (List.mem_singleton.mpr rfl)
    simpa [condMatches] using h
  · have h2a : (SupabaseClient.select store2 none t2 [("limit", "2")]).data
        = (store2.table t2).take 2 := by
      rw [select_eq_ok store2 t2 [("limit", "2")] [] rfl]
      simp [lookupFilter, pyInt, parseDigits, parseDigitsAux, pyTake, List.filter_true]
    refine ⟨h2a, ?_⟩
    rw [h2a]
    exact List.length_take_le 2 _
  · intro r hr c hcm
    exact select_mem_conds store3 t3 fs conds hc r hr c hcm

/-- Concrete store exercising the C5 witness non-vacuously: it holds an
id-5 row and a manufacturer-A active row. -/
def exStore5 : Store :=
  { manufacturers := [],
    maintenance_personnel := [],
    users := [[("id", Value.int 5), ("username", Value.str "eve"),
               ("manufacturer_id", Value.str "A"), ("is_active", Value.bool true)],
              [("id", Value.int 7), ("username", Value.str "frank"),
               ("manufacturer_id", Value.str "B"), ("is_active", Value.bool true)],
              [("id", Value.int 9), ("username", Value.str "gina"),
               ("manufacturer_id", Value.str "A"), ("is_active", Value.bool true)]] }

/-- Witness for C5 at a concrete store and filter map. -/
theorem c5_select_filter_semantics_witness :
    (∀ r ∈ (SupabaseClient.select exStore5 none "users" [("id", "eq.5")]).data,
        getField r "id" = some (Value.int 5))
    ∧ ((SupabaseClient.select exStore5 none "users" [("limit", "2")]).data
        = (exStore5.table "users").take 2
       ∧ (SupabaseClient.select exStore5 none "users" [("limit", "2")]).data.length ≤ 2)
    ∧ (∀ r ∈ (SupabaseClient.select exStore5 none "users"
                [("manufacturer_id", "eq.A"), ("is_active", "eq.true")]).data,
        ∀ c ∈ [Cond.eqStr "manufacturer_id" "A", Cond.eqBool "is_active" true],
          condMatches c r = true) :=
  c5_select_filter_semantics exStore5 exStore5 exStore5 "users" "users" "users"
    [("manufacturer_id", "eq.A"), ("is_active", "eq.true")]
    [Cond.eqStr "manufacturer_id" "A", Cond.eqBool "is_active" true] rfl

/-- C6: unrecognized filter keys are silently ignored — inserting an
entry whose key is outside the set recognized by `select`
(manufacturer_id, is_active, username, id, limit) or by `update`
(id, manufacturer_id) anywhere into the filter map leaves the
operation's result unchanged; no error is reported. -/
theorem c6_unrecognized_keys (store : Store) (ne : Option String) (now t : String)
    (patch : Row) (fs1 fs2 : Filters) (k v : String) :
    (k ∉ (["manufacturer_id", "is_active", "username", "id", "limit"] : List String) →
      SupabaseClient.select store ne t (fs1 ++ (k, v) :: fs2)
        = SupabaseClient.select store ne t (fs1 ++ fs2))
    ∧ (k ∉ (["id", "manufacturer_id"] : List String) →
      SupabaseClient.update store ne now t patch (fs1 ++ (k, v) :: fs2)
        = SupabaseClient.update store ne now t patch (fs1 ++ fs2)) := by
  constructor
  · intro h
    simp only [List.mem_cons, List.not_mem_nil, or_false, not_or] at h
    obtain ⟨h1, h2, h3, h4, h5⟩ := h
    unfold SupabaseClient.select
    rw [selectCondsAux_ignore k v h1 h2 h3 h4, lookupFilter_skip k v "limit" h5]
  · intro h
    simp only [List.mem_cons, List.not_mem_nil, or_false, not_or] at h
    obtain ⟨h1, h2⟩ := h
    unfold SupabaseClient.update
    rw [updateCondsAux_ignore k v h1 h2]

/-- Witness for C6: adding an extra `note` key changes neither a select
nor an update on the concrete store. -/
theorem c6_unrecognized_keys_witness :
    SupabaseClient.select exStore none "users"
        ([("username", "eq.admin")] ++ ("note", "x") :: [])
      = SupabaseClient.select exStore none "users" ([("username", "eq.admin")] ++ [])
    ∧ SupabaseClient.update exStore none "t1" "users" [("password", Value.str "p9")]
        ([("username", "eq.admin")] ++ ("note", "x") :: [])
      = SupabaseClient.update exStore none "t1" "users" [("password", Value.str "p9")]
          ([("username", "eq.admin")] ++ []) :=
  ⟨(c6_unrecognized_keys exStore none "t1" "users" [("password", Value.str "p9")]
      [("username", "eq.admin")] [] "note" "x").1 (by decide),
   (c6_unrecognized_keys exStore none "t1" "users" [("password", Value.str "p9")]
      [("username", "eq.admin")] [] "note" "x").2 (by decide)⟩

theorem selectCondsAux_bad_id (v : String)
    (hpre : pyStartsWith v "eq." = true) (hparse : pyInt (pyDrop v 3) = none) :
    ∀ fs : Filters, ("id", v) ∈ fs → ∀ acc : List Cond,
      ∃ e, selectCondsAux acc fs = Except.error e := by
  intro fs
  induction fs with
  | nil =>
    intro hmem
    simp at hmem
  | cons p rest ih =>
    intro hmem acc
    obtain ⟨k0, v0⟩ := p
    rcases List.mem_cons.mp hmem with h | h
    · rw [Prod.mk.injEq] at h
      obtain ⟨hk, hv⟩ := h
      subst hk
      subst hv
      exact ⟨"invalid literal for int() with base 10: " ++ pyDrop v 3,
        by simp [selectCondsAux, hpre, hparse]⟩
    · simp only [selectCondsAux]
      split
      · exact ih h _
      · split
        · exact ih h _
        · split
          · exact ih h _
          · split
            · split
              · exact ih h _
              · exact ⟨_, rfl⟩
            · exact ih h _

/-- C7: data-access errors are returned as values, never raised.  For
every input, `select` either reports no error or reports a non-null
error string together with an empty data list; a filter entry
`('id', 'eq.<x>')` whose remainder does not parse as an integer forces
an error result, as does any failure of the underlying client call;
`insert` and `update` likewise either succeed or return `data = None`
with a non-null error string, and a raised client call surfaces as the
returned error string.  (The Lean model functions are total, mirroring
the source's catch-all handlers: no exception escapes these
operations.) -/
theorem c7_errors_as_values (store : Store) (ne : Option String) (t : String)
    (fs : Filters) (v e now1 now2 now : String) (d patch : Row) (net : InsertNet) :
    ((SupabaseClient.select store ne t fs).error = none
      ∨ ((SupabaseClient.select store ne t fs).error ≠ none
          ∧ (SupabaseClient.select store ne t fs).data = []))
    ∧ (("id", v) ∈ fs → pyStartsWith v "eq." = true → pyInt (pyDrop v 3) = none →
        (SupabaseClient.select store ne t fs).error ≠ none)
    ∧ (SupabaseClient.select store (some e) t fs).error ≠ none
    ∧ ((SupabaseClient.insert store net now1 now2 t d).2.error = none
      ∨ ((SupabaseClient.insert store net now1 now2 t d).2.error ≠ none
          ∧ (SupabaseClient.insert store net now1 now2 t d).2.data = none))
    ∧ (SupabaseClient.insert store (InsertNet.fail e) now1 now2 t d).2.error = some e
    ∧ ((SupabaseClient.update store ne now t patch fs).2.error = none
      ∨ ((SupabaseClient.update store ne now t patch fs).2.error ≠ none
          ∧ (SupabaseClient.update store ne now t patch fs).2.data = none))
    ∧ (SupabaseClient.update store (some e) now t patch fs).2.error ≠ none := by
  refine ⟨?_, ?_, ?_, ?_, rfl, ?_, ?_⟩
  · unfold SupabaseClient.select
    split
    · exact Or.inr ⟨by simp, rfl⟩
    · split
      · exact Or.inr ⟨by simp, rfl⟩
      · split
        · exact Or.inl rfl
        · split
          · exact Or.inl rfl
          · exact Or.inr ⟨by simp, rfl⟩
  · intro hmem hpre hparse
    obtain ⟨e', he⟩ := selectCondsAux_bad_id v hpre hparse fs hmem []
    unfold SupabaseClient.select
    rw [he]
    simp
  · unfold SupabaseClient.select
    cases hc : selectCondsAux [] fs <;> simp
  · cases net with
    | ok => exact Or.inl rfl
    | noRows => exact Or.inr ⟨by simp [SupabaseClient.insert], rfl⟩
    | fail e2 => exact Or.inr ⟨by simp [SupabaseClient.insert], rfl⟩
  · unfold SupabaseClient.update
    split
    · exact Or.inr ⟨by simp, rfl⟩
    · split
      · exact Or.inr ⟨by simp, rfl⟩
      · dsimp only
        split
        · exact Or.inr ⟨by simp, rfl⟩
        · exact Or.inl rfl
  · unfold SupabaseClient.update
    cases hc : updateCondsAux [] fs <;> simp

/-- Witness for C7: the malformed id filter `eq.abc`, a raised select, a
raised insert and a raised update all come back as error values. -/
theorem c7_errors_as_values_witness :
    (SupabaseClient.select exStore none "users" [("id", "eq.abc")]).error ≠ none
    ∧ (SupabaseClient.select exStore (some "boom") "users" []).error ≠ none
    ∧ (SupabaseClient.insert exStore (InsertNet.fail "boom") "t1" "t2" "users" []).2.error
        = some "boom"
    ∧ (SupabaseClient.update exStore (some "boom") "t1" "users" [] []).2.error ≠ none :=
  ⟨(c7_errors_as_values exStore none "users" [("id", "eq.abc")] "eq.abc" "boom"
      "t1" "t2" "t1" [] [] InsertNet.ok).2.1 (by decide) (by decide) (by decide),
   (c7_errors_as_values exStore none "users" [] "v" "boom"
      "t1" "t2" "t1" [] [] InsertNet.ok).2.2.1,
   (c7_errors_as_values exStore none "users" [] "v" "boom"
      "t1" "t2" "t1" [] [] InsertNet.ok).2.2.2.2.1,
   (c7_errors_as_values exStore none "users" [] "v" "boom"
      "t1" "t2" "t1" [] [] InsertNet.ok).2.2.2.2.2.2⟩

/-- A personnel row as a caller builds it, without an `is_active` key. -/
def exNewPersonnel : Row :=
  [("manufacturer_id", Value.str "A"), ("personnel_name", Value.str "李四")]

/-- C8: every inserted row is stamped with `created_at` set to the
current timestamp, and the stored row is exactly the stamped row; a row
inserted into the Personnel table is additionally stamped with
`updated_at`, and `is_active` defaults to true whenever the caller
omitted it. -/
theorem c8_insert_stamping (store : Store) (now1 now2 t : String) (d : Row) :
    getField (SupabaseClient.stampInsert now1 now2 t d) "created_at"
      = some (Value.str now1)
    ∧ SupabaseClient.insert store InsertNet.ok now1 now2 t d
      = (store.setTable t (store.table t ++ [SupabaseClient.stampInsert now1 now2 t d]),
         { data := some [SupabaseClient.stampInsert now1 now2 t d], error := none })
    ∧ (t = "maintenance_personnel" →
        getField (SupabaseClient.stampInsert now1 now2 t d) "updated_at"
          = some (Value.str now2)
        ∧ (getField d "is_active" = none →
            getField (SupabaseClient.stampInsert now1 now2 t d) "is_active"
              = some (Value.bool true))) := by
  refine ⟨?_, rfl, ?_⟩
  · unfold SupabaseClient.stampInsert
    by_cases ht : t = "maintenance_personnel"
    · rw [if_pos ht]
      dsimp only
      split
      · rw [getField_setField_ne _ _ _ _ (by decide),
          getField_setField_ne _ _ _ _ (by decide), getField_setField_self]
      · rw [getField_setField_ne _ _ _ _ (by decide), getField_setField_self]
    · rw [if_neg ht, getField_setField_self]
  · intro ht
    subst ht
    constructor
    · unfold SupabaseClient.stampInsert
      rw [if_pos rfl]
      dsimp only
      split
      · rw [getField_setField_ne _ _ _ _ (by decide), getField_setField_self]
      · rw [getField_setField_self]
    · intro hia
      unfold SupabaseClient.stampInsert
      rw [if_pos rfl]
      dsimp only
      have h2 : getField (setField (setField d "created_at" (Value.str now1))
          "updated_at" (Value.str now2)) "is_active" = none := by
        rw [getField_setField_ne _ _ _ _ (by decide),
          getField_setField_ne _ _ _ _ (by decide)]
        exact hia
      rw [if_pos h2, getField_setField_self]

/-- Witness for C8 at a concrete personnel row with no `is_active` key. -/
theorem c8_insert_stamping_witness :
    getField (SupabaseClient.stampInsert "t1" "t2" "maintenance_personnel" exNewPersonnel)
      "created_at" = some (Value.str "t1")
    ∧ SupabaseClient.insert exStore InsertNet.ok "t1" "t2" "maintenance_personnel" exNewPersonnel
      = (exStore.setTable "maintenance_personnel"
          (exStore.table "maintenance_personnel"
            ++ [SupabaseClient.stampInsert "t1" "t2" "maintenance_personnel" exNewPersonnel]),
         { data := some [SupabaseClient.stampInsert "t1" "t2" "maintenance_personnel" exNewPersonnel],
           error := none })
    ∧ getField (SupabaseClient.stampInsert "t1" "t2" "maintenance_personnel" exNewPersonnel)
        "updated_at" = some (Value.str "t2")
    ∧ getField (SupabaseClient.stampInsert "t1" "t2" "maintenance_personnel" exNewPersonnel)
        "is_active" = some (Value.bool true) :=
  ⟨(c8_insert_stamping exStore "t1" "t2" "maintenance_personnel" exNewPersonnel).1,
   (c8_insert_stamping exStore "t1" "t2" "maintenance_personnel" exNewPersonnel).2.1,
   ((c8_insert_stamping exStore "t1" "t2" "maintenance_personnel" exNewPersonnel).2.2 rfl).1,
   ((c8_insert_stamping exStore "t1" "t2" "maintenance_personnel" exNewPersonnel).2.2 rfl).2
     (by decide)⟩

/-- C2: the reset-password handler issues the users-table update with the
filter `{'username': 'eq.<username>'}`; the update wrapper recognizes only
the `id` and `manufacturer_id` filter keys, so this filter decodes to the
empty condition list and the password patch is applied to every row of the
users table — the update is not restricted to the row whose username
matches. -/
theorem c2_reset_password_unscoped (store : Store) (hash : String → String)
    (now : String) (u pw : String) (hu : u ≠ "") (hpw : pw ≠ "")
    (hsel : (SupabaseClient.select store none "users" [("username", "eq." ++ u)]).data ≠ []) :
    updateCondsAux [] [("username", "eq." ++ u)] = Except.ok []
    ∧ (reset_password store none hash now (some u) (some pw)).1
      = [DbOp.opSelect "users" [("username", "eq." ++ u)],
         DbOp.opUpdate "users" [("password", Value.str (hash pw))] [("username", "eq." ++ u)]]
    ∧ (reset_password store none hash now (some u) (some pw)).2.1.users
      = store.users.map (fun r => setField r "password" (Value.str (hash pw))) := by
  have husers : store.users ≠ [] := by
    intro hnil
    obtain ⟨r, hr⟩ := List.exists_mem_of_ne_nil _ hsel
    have hsub := select_data_subset store none "users" [("username", "eq." ++ u)] hr
    rw [show Store.table store "users" = store.users from rfl, hnil] at hsub
    simp at hsub
  have hconds : updateCondsAux [] [("username", "eq." ++ u)] = Except.ok [] := by
    simp [updateCondsAux]
  have hupd : SupabaseClient.update store none now "users"
      [("password", Value.str (hash pw))] [("username", "eq." ++ u)]
      = (store.setTable "users" (store.users.map
           (fun r => setField r "password" (Value.str (hash pw)))),
         { data := some (store.users.map
             (fun r => setField r "password" (Value.str (hash pw)))),
           error := none }) := by
    unfold SupabaseClient.update
    rw [hconds]
    dsimp only
    simp only [List.all_nil, List.filter_true, if_true]
    rw [if_neg (by simp [Store.table, husers])]
    rfl
  have htr : (truthy (some u) && truthy (some pw)) = true := by
    simp [truthy, hu, hpw]
  refine ⟨hconds, ?_, ?_⟩
  · unfold reset_password
    rw [htr, if_neg (by simp)]
    dsimp only
    simp only [pyShow]
    rw [if_neg hsel, hupd]
  · unfold reset_password
    rw [htr, if_neg (by simp)]
    dsimp only
    simp only [pyShow]
    rw [if_neg hsel, hupd]
    rfl

/-- Witness for C2: on the concrete two-user store, resetting `admin`'s
password overwrites the password of every users row. -/
theorem c2_reset_password_unscoped_witness :
    updateCondsAux [] [("username", "eq." ++ "admin")] = Except.ok []
    ∧ (reset_password exStore none exHash "t1" (some "admin") (some "new")).1
      = [DbOp.opSelect "users" [("username", "eq." ++ "admin")],
         DbOp.opUpdate "users" [("password", Value.str (exHash "new"))]
           [("username", "eq." ++ "admin")]]
    ∧ (reset_password exStore none exHash "t1" (some "admin") (some "new")).2.1.users
      = exStore.users.map (fun r => setField r "password" (Value.str (exHash "new"))) :=
  c2_reset_password_unscoped exStore exHash "t1" "admin" "new"
    (by decide) (by decide) (by decide)

/-- C10 counterexample: the claim says that after the third failed
attempt `ensure_connection` leaves the client handle unset.  When every
attempt constructs a client successfully but fails its probe, the third
attempt returns `False` while the handle is still set (the
`client = None` reset only runs on non-final attempts, app.py 249-251). -/
theorem c10_counterexample :
    (ensure_connection ⟨true, false⟩ ⟨true, false⟩ ⟨true, false⟩ none).1 = false
    ∧ (ensure_connection ⟨true, false⟩ ⟨true, false⟩ ⟨true, false⟩ none).2.1 ≠ none
    ∧ (ensure_connection ⟨true, false⟩ ⟨true, false⟩ ⟨true, false⟩ none).2.2
      = [Ev.attempt 0, Ev.sleep 5, Ev.attempt 1, Ev.sleep 5, Ev.attempt 2] := by
  decide

/-- C10 amended: `ensure_connection` makes at most 3 attempts with a
fixed 5-second sleep between consecutive failed attempts (the only
possible traces are one, two or three attempts with 5-second sleeps
between them); it returns `False` only after the third failed attempt;
and after such a failure the client handle is unset exactly when the
final attempt failed to construct a client — a client constructed on the
final attempt whose probe failed is left set (so the per-request lazy
re-initialization, which triggers only on an unset handle, is not
re-triggered in that case). -/
theorem c10_amended (e0 e1 e2 : AttemptEnv) (cl : Option Unit) :
    ((ensure_connection e0 e1 e2 cl).2.2 = [Ev.attempt 0]
      ∨ (ensure_connection e0 e1 e2 cl).2.2 = [Ev.attempt 0, Ev.sleep 5, Ev.attempt 1]
      ∨ (ensure_connection e0 e1 e2 cl).2.2
          = [Ev.attempt 0, Ev.sleep 5, Ev.attempt 1, Ev.sleep 5, Ev.attempt 2])
    ∧ ((ensure_connection e0 e1 e2 cl).1 = false →
        (ensure_connection e0 e1 e2 cl).2.2
          = [Ev.attempt 0, Ev.sleep 5, Ev.attempt 1, Ev.sleep 5, Ev.attempt 2])
    ∧ ((ensure_connection e0 e1 e2 cl).1 = false →
        ((ensure_connection e0 e1 e2 cl).2.1 = none ↔ e2.constructOk = false)) := by
  obtain ⟨c0, p0⟩ := e0
  obtain ⟨c1, p1⟩ := e1
  obtain ⟨c2, p2⟩ := e2
  rcases cl with - | ⟨⟨⟩⟩ <;> cases c0 <;> cases p0 <;> cases c1 <;> cases p1 <;>
    cases c2 <;> cases p2 <;> decide

/-- Witness for C10's amended statement on an environment where all three
attempts fail to construct a client. -/
theorem c10_amended_witness :
    (ensure_connection ⟨false, false⟩ ⟨false, false⟩ ⟨false, false⟩ none).2.2
      = [Ev.attempt 0, Ev.sleep 5, Ev.attempt 1, Ev.sleep 5, Ev.attempt 2]
    ∧ ((ensure_connection ⟨false, false⟩ ⟨false, false⟩ ⟨false, false⟩ none).2.1 = none
        ↔ (⟨false, false⟩ : AttemptEnv).constructOk = false) :=
  ⟨(c10_amended ⟨false, false⟩ ⟨false, false⟩ ⟨false, false⟩ none).2.1 (by decide),
   (c10_amended ⟨false, false⟩ ⟨false, false⟩ ⟨false, false⟩ none).2.2 (by decide)⟩

theorem update_mp_store (store : Store) (now : String) (b : Bool) (v : String) (pid : Int)
    (hv : pyStartsWith v "eq." = true) (hp : pyInt (pyDrop v 3) = some pid) :
    (SupabaseClient.update store none now "maintenance_personnel"
        [("is_active", Value.bool b)] [("id", v)]).1.maintenance_personnel
      = store.maintenance_personnel.map
          (fun r => if condMatches (Cond.eqInt "id" pid) r
                    then applyPatch r
                          [("is_active", Value.bool b), ("updated_at", Value.str now)]
                    else r) := by
  have hconds : updateCondsAux [] [("id", v)] = Except.ok [Cond.eqInt "id" pid] := by
    simp [updateCondsAux, hv, hp]
  unfold SupabaseClient.update
  rw [hconds]
  dsimp only
  rw [show SupabaseClient.stampUpdatePatch now "maintenance_personnel"
        [("is_active", Value.bool b)]
      = [("is_active", Value.bool b), ("updated_at", Value.str now)] from rfl]
  simp only [List.all_cons, List.all_nil, Bool.and_true]
  split
  · next h =>
    have hfil := List.filter_eq_nil_iff.mp (List.map_eq_nil_iff.mp h)
    symm
    refine (List.map_congr_left fun r hr => ?_).trans (List.map_id _)
    exact if_neg (hfil r hr)
  · rfl

theorem condMatches_id_applyPatch (r : Row) (pid : Int) (b : Bool) (now : String) :
    condMatches (Cond.eqInt "id" pid)
        (applyPatch r [("is_active", Value.bool b), ("updated_at", Value.str now)])
      = condMatches (Cond.eqInt "id" pid) r := by
  simp only [condMatches]
  rw [getField_applyPatch_notMem _ _ _
    (by intro p hp
        rcases List.mem_cons.mp hp with h | h
        · simp [h]
        · simp at h
          simp [h])]

/-- C9 counterexample: the claim says the delete/restore round trip
returns every existing Personnel row to a state equal to its pre-toggle
state in every field except `updated_at`.  For a row that was already
soft-deleted (`is_active = false`), the round trip ends with
`is_active = true`, differing from the pre-toggle row in `is_active` as
well. -/
theorem c9_counterexample :
    getField (exStoreInactive.maintenance_personnel.headI) "is_active"
      = some (Value.bool false)
    ∧ (deleteThenRestore exStoreInactive "t1" "t2" "eq.1").maintenance_personnel
      = [[("id", Value.int 1), ("personnel_name", Value.str "王五"),
          ("is_active", Value.bool true), ("updated_at", Value.str "t2")]]
    ∧ getField ((deleteThenRestore exStoreInactive "t1" "t2" "eq.1").maintenance_personnel.headI)
        "is_active"
      ≠ getField (exStoreInactive.maintenance_personnel.headI) "is_active" := by
  decide

/-- C9 amended: the delete/restore round trip on a personnel id is a
soft update — the Personnel table keeps its length (no hard delete);
rows not matching the id are untouched; the matching row has only
`is_active` and `updated_at` written, ending with `is_active = true` and
`updated_at` re-stamped; and — amended with the precondition the
counterexample forces — a matching row that was active (`is_active =
true`) before the toggle ends equal to its pre-toggle state in every
field except `updated_at`. -/
theorem c9_amended (store : Store) (now1 now2 v : String) (pid : Int)
    (hv : pyStartsWith v "eq." = true) (hp : pyInt (pyDrop v 3) = some pid)
    (r : Row) (i : Nat)
    (hget : store.maintenance_personnel[i]? = some r) :
    (deleteThenRestore store now1 now2 v).maintenance_personnel.length
      = store.maintenance_personnel.length
    ∧ (∀ r', (deleteThenRestore store now1 now2 v).maintenance_personnel[i]? = some r' →
        (condMatches (Cond.eqInt "id" pid) r = false → r' = r)
        ∧ (condMatches (Cond.eqInt "id" pid) r = true →
            (∀ k : String, k ≠ "is_active" → k ≠ "updated_at" →
              getField r' k = getField r k)
            ∧ getField r' "is_active" = some (Value.bool true)
            ∧ getField r' "updated_at" = some (Value.str now2)
            ∧ (getField r "is_active" = some (Value.bool true) →
                ∀ k : String, k ≠ "updated_at" → getField r' k = getField r k))) := by
  have hmp : (deleteThenRestore store now1 now2 v).maintenance_personnel
      = store.maintenance_personnel.map
          (fun r => if condMatches (Cond.eqInt "id" pid) r
                    then applyPatch
                          (applyPatch r
                            [("is_active", Value.bool false), ("updated_at", Value.str now1)])
                          [("is_active", Value.bool true), ("updated_at", Value.str now2)]
                    else r) := by
    unfold deleteThenRestore
    dsimp only
    rw [update_mp_store _ now2 true v pid hv hp,
      update_mp_store store now1 false v pid hv hp, List.map_map]
    refine List.map_congr_left fun r hr => ?_
    simp only [Function.comp_apply]
    by_cases hcm : condMatches (Cond.eqInt "id" pid) r = true
    · rw [if_pos hcm, if_pos (by rw [condMatches_id_applyPatch]; exact hcm), if_pos hcm]
    · rw [if_neg hcm, if_neg hcm, if_neg hcm]
  constructor
  · rw [hmp]
    exact List.length_map _ _
  · intro r' hr'
    rw [hmp, List.getElem?_map, hget] at hr'
    simp only [Option.map_some'] at hr'
    rw [Option.some_inj] at hr'
    subst hr'
    constructor
    · intro hcm
      rw [if_neg (by simp [hcm])]
    · intro hcm
      rw [if_pos hcm]
      have hstep : applyPatch
            (applyPatch r [("is_active", Value.bool false), ("updated_at", Value.str now1)])
            [("is_active", Value.bool true), ("updated_at", Value.str now2)]
          = setField (setField (setField (setField r
              "is_active" (Value.bool false)) "updated_at" (Value.str now1))
              "is_active" (Value.bool true)) "updated_at" (Value.str now2) := rfl
      rw [hstep]
      refine ⟨?_, ?_, ?_, ?_⟩
      · intro k hk1 hk2
        rw [getField_setField_ne _ _ _ _ (Ne.symm hk2),
          getField_setField_ne _ _ _ _ (Ne.symm hk1),
          getField_setField_ne _ _ _ _ (Ne.symm hk2),
          getField_setField_ne _ _ _ _ (Ne.symm hk1)]
      · rw [getField_setField_ne _ _ _ _ (by decide), getField_setField_self]
      · rw [getField_setField_self]
      · intro hact k hk
        by_cases hk1 : k = "is_active"
        · subst hk1
          rw [getField_setField_ne _ _ _ _ (by decide), getField_setField_self, hact]
        · rw [getField_setField_ne _ _ _ _ (Ne.symm hk),
            getField_setField_ne _ _ _ _ (Ne.symm hk1),
            getField_setField_ne _ _ _ _ (Ne.symm hk),
            getField_setField_ne _ _ _ _ (Ne.symm hk1)]

/-- The row the C9 round trip produces from `exStore`'s personnel row. -/
def exC9Row : Row :=
  [("id", Value.int 1), ("manufacturer_id", Value.str "A"),
   ("personnel_name", Value.str "张三"), ("is_active", Value.bool true),
   ("updated_at", Value.str "t2")]

/-- Witness for C9's amended statement on a store whose single active
personnel row is toggled off and back on: the table keeps its length and
the row returns to its pre-toggle state in every field except
`updated_at`. -/
theorem c9_amended_witness :
    (deleteThenRestore exStore "t1" "t2" "eq.1").maintenance_personnel.length
      = exStore.maintenance_personnel.length
    ∧ (∀ k : String, k ≠ "updated_at" →
        getField exC9Row k = getField (exStore.maintenance_personnel.headI) k)
    ∧ getField exC9Row "is_active" = some (Value.bool true)
    ∧ getField exC9Row "updated_at" = some (Value.str "t2") :=
  ⟨(c9_amended exStore "t1" "t2" "eq.1" 1 (by decide) (by decide)
      (exStore.maintenance_personnel.headI) 0 (by decide)).1,
   ((((c9_amended exStore "t1" "t2" "eq.1" 1 (by decide) (by decide)
      (exStore.maintenance_personnel.headI) 0 (by decide)).2 exC9Row
        (by decide)).2 (by decide)).2.2.2 (by decide)),
   ((((c9_amended exStore "t1" "t2" "eq.1" 1 (by decide) (by decide)
      (exStore.maintenance_personnel.headI) 0 (by decide)).2 exC9Row
        (by decide)).2 (by decide)).2.1),
   ((((c9_amended exStore "t1" "t2" "eq.1" 1 (by decide) (by decide)
      (exStore.maintenance_personnel.headI) 0 (by decide)).2 exC9Row
        (by decide)).2 (by decide)).2.2.1)⟩

/-- Witness for C4's amended statement at the concrete
`manufacturer_admin` session and a non-`user` requested role. -/
theorem c4_amended_witness :
    (∀ f : SessionUser → Nat,
        login_required (some ["super_admin"]) (some exMfrAdminSess) f
          = GateResult.errorView "权限不足" "您没有访问此页面的权限" 403)
    ∧ add_user exStore none InsertNet.ok exHash "t1" "t2" exMfrAdminSess exAddUserFormBad
        = ([], exStore, JsonResp.fail "您只能创建普通用户") :=
  ⟨(@c4_amended Nat exMfrAdminSess (by decide) exStore none InsertNet.ok exHash "t1" "t2"
      exAddUserFormBad "pw1" rfl (by decide) (by decide)).1,
   (@c4_amended Nat exMfrAdminSess (by decide) exStore none InsertNet.ok exHash "t1" "t2"
      exAddUserFormBad "pw1" rfl (by decide) (by decide)).2.2 rfl⟩

end MoldManage
